import Mathlib

/-!
Shallow embedding of the trade-master-backend course-marketplace service
(TypeScript/Express/PostgreSQL) and verification of its specification.

Modelled components:
 - the `users` and `cart_items` tables (database/init.sql), with the
   time-valued columns (`created_at`, `updated_at`, `added_at`) omitted,
   since no verified property mentions them;
 - `CartService` (src/services/cartService.ts) with explicit state passing:
   each method takes the current `cart_items` table and returns the result
   together with the table after the statement ran;
 - `UserService.register`/`login` (src/services/userService.ts);
 - `AuthMiddleware.authenticate` (src/middleware/auth.ts);
 - the HTTP controllers and route wiring relevant to the claims
   (src/controllers/authController.ts, cartController.ts,
   src/routes/auth.ts, cart.ts).

External collaborators (`pg`, `bcryptjs`, `jsonwebtoken`) are modelled at
their interface contracts, as the code relies on them:
 - a `SELECT` returns only the listed columns; reading an unselected column
   on a result row yields JavaScript `undefined`, which is falsy — modelled
   by `Option` fields and `jsTruthy`;
 - `UPDATE`/`DELETE` report `rowCount`, the number of rows matched by the
   `WHERE` clause (for `UPDATE` this counts rows whose stored value already
   equals the assigned value);
 - bcrypt: `compare p (hash p) = true`, modelled by a deterministic tag;
 - jwt: a token carries its payload, the secret it was signed with, and an
   `expired` flag abstracting whether the 24h expiry has passed at the time
   of verification.
-/

/-- Role enum `user_role` from database/init.sql and `UserRole` in
src/types/user.ts. -/
inductive UserRole where
  | user
  | admin
deriving DecidableEq

/-- A row of the `users` table (database/init.sql); `created_at` and
`updated_at` are omitted. `is_active` defaults to TRUE on insert. -/
structure UserRow where
  id : Nat
  email : String
  password : String
  first_name : String
  last_name : String
  phone : Option String
  role : UserRole
  is_active : Bool
deriving DecidableEq

/-- The `users` table: its rows in insertion order, plus the next value of
the `id` SERIAL sequence. -/
structure UsersTable where
  rows : List UserRow
  nextId : Nat
deriving DecidableEq

/-- A row of the `cart_items` table (database/init.sql); `added_at`
omitted. `bought` defaults to FALSE on insert. -/
structure CartRow where
  id : Nat
  user_id : Nat
  course_id : Nat
  bought : Bool
deriving DecidableEq

/-- The `cart_items` table with its `id` sequence. The schema declares
UNIQUE(user_id, course_id); the insert model below enforces it. -/
structure CartTable where
  rows : List CartRow
  nextId : Nat
deriving DecidableEq

/-- The `CartItem` shape returned by `CartService.mapRowToCartItem`
(src/services/cartService.ts): note it carries no `bought` field. -/
structure CartItem where
  id : Nat
  userId : Nat
  courseId : Nat
deriving DecidableEq

/-- A result row of `SELECT id FROM cart_items ...`: only `id` was listed
in the SELECT, so every other column is absent (JavaScript `undefined`)
on the returned row object. -/
structure SelectedCartRow where
  id : Option Nat
  bought : Option Bool
deriving DecidableEq

/-- Truthiness of a possibly-undefined JavaScript boolean: `undefined` is
falsy. -/
def jsTruthy : Option Bool → Bool
  | none => false
  | some b => b

namespace CartService

/-- The pre-check query of `addToCart`:
`SELECT id FROM cart_items WHERE user_id = $1 AND course_id = $2`.
Only the `id` column is selected, so `bought` is absent on every result
row. -/
def selectIdWhereUserCourse (t : CartTable) (u c : Nat) : List SelectedCartRow :=
  (t.rows.filter fun r => r.user_id == u && r.course_id == c).map
    fun r => { id := some r.id, bought := none }

/-- The error message PostgreSQL raises when an INSERT violates
UNIQUE(user_id, course_id); the service has no catch around its INSERT, so
this message propagates verbatim. -/
def uniqueViolationMsg : String :=
  "duplicate key value violates unique constraint \"cart_items_user_id_course_id_key\""

/-- The INSERT statement of `addToCart`, with the store-level uniqueness
constraint of database/init.sql: a duplicate (user_id, course_id) makes
the store reject the insert. -/
def insertCartItem (t : CartTable) (u c : Nat) : Except String (CartRow × CartTable) :=
  if t.rows.any fun r => r.user_id == u && r.course_id == c then
    Except.error uniqueViolationMsg
  else
    let row : CartRow := { id := t.nextId, user_id := u, course_id := c, bought := false }
    Except.ok (row, { rows := t.rows ++ [row], nextId := t.nextId + 1 })

/-- Field projection `mapRowToCartItem` of src/services/cartService.ts. -/
def mapRowToCartItem (r : CartRow) : CartItem :=
  { id := r.id, userId := r.user_id, courseId := r.course_id }

/-- First phase of `CartService.addToCart` (up to its first await): the
existence pre-check. If a row exists the code reads `.bought` on a row
that was selected with only `id`, so the read yields `undefined` (falsy)
and the "You already bought it" branch is unreachable. -/
def addToCartPrecheck (t : CartTable) (u c : Nat) : Except String Unit :=
  match selectIdWhereUserCourse t u c with
  | row :: _ =>
      if jsTruthy row.bought then Except.error "You already bought it"
      else Except.error "Course already in Cart"
  | [] => Except.ok ()

/-- Second phase of `CartService.addToCart`: the INSERT followed by the
re-SELECT of the inserted row by id. The service has no catch, so a store
rejection propagates unchanged. The `none` branch of the re-SELECT models
the TypeError JavaScript would raise mapping a missing row; it is
unreachable when ids are fresh. -/
def addToCartInsertPhase (t : CartTable) (u c : Nat) : Except String (CartItem × CartTable) :=
  match insertCartItem t u c with
  | Except.error e => Except.error e
  | Except.ok (inserted, t2) =>
      match t2.rows.find? fun r => r.id == inserted.id with
      | some r => Except.ok (mapRowToCartItem r, t2)
      | none => Except.error "TypeError: Cannot read properties of undefined"

/-- CartService.addToCart (src/services/cartService.ts, lines 261-303):
the pre-check phase followed by the insert phase, run without
interleaving. -/
def addToCart (t : CartTable) (u c : Nat) : Except String (CartItem × CartTable) :=
  match addToCartPrecheck t u c with
  | Except.error e => Except.error e
  | Except.ok _ => addToCartInsertPhase t u c

/-- CartService.removeFromCart:
`DELETE FROM cart_items WHERE user_id = $1 AND course_id = $2 AND bought = false`,
returning `rowCount > 0`. -/
def removeFromCart (t : CartTable) (u c : Nat) : Bool × CartTable :=
  let matched := t.rows.countP fun r => r.user_id == u && r.course_id == c && r.bought == false
  (decide (0 < matched),
   { t with rows := t.rows.filter fun r => !(r.user_id == u && r.course_id == c && r.bought == false) })

/-- CartService.clearCart (src/services/cartService.ts, lines 342-355):
with `bought = true` it runs `UPDATE cart_items SET bought = true WHERE
user_id = $1` (no bought filter — every row of the user is matched and
counted); with `bought = false` it runs `DELETE FROM cart_items WHERE
user_id = $1 and bought = false`. Returns `rowCount > 0`. -/
def clearCart (t : CartTable) (u : Nat) (bought : Bool) : Bool × CartTable :=
  if bought then
    let matched := t.rows.countP fun r => r.user_id == u
    (decide (0 < matched),
     { t with rows := t.rows.map fun r => if r.user_id == u then { r with bought := true } else r })
  else
    let matched := t.rows.countP fun r => r.user_id == u && r.bought == false
    (decide (0 < matched),
     { t with rows := t.rows.filter fun r => !(r.user_id == u && r.bought == false) })

/-- CartService.getCartItemCount:
`SELECT COUNT(*) FROM cart_items WHERE user_id = $1 AND bought = false`. -/
def getCartItemCount (t : CartTable) (u : Nat) : Nat :=
  t.rows.countP fun r => r.user_id == u && r.bought == false

/-- CartService.isInCart:
`SELECT id FROM cart_items WHERE user_id = $1 AND course_id = $2 AND bought = false`,
returning `rows.length > 0`. -/
def isInCart (t : CartTable) (u c : Nat) : Bool :=
  decide (0 < (t.rows.filter fun r => r.user_id == u && r.course_id == c && r.bought == false).length)

end CartService

/-- An empty `cart_items` table. -/
def cartEmpty : CartTable := { rows := [], nextId := 1 }


/-- Model of `bcryptjs.hash` with a fixed salt round: a deterministic,
injective tagging standing in for the salted one-way hash. The only
property the code relies on is that `bcryptCompare p (bcryptHash p)`
holds. -/
def bcryptHash (password : String) : String :=
  "$2a$10$" ++ password

/-- Model of `bcryptjs.compare`: succeeds exactly on the hash of the
candidate password. -/
def bcryptCompare (password hash : String) : Bool :=
  hash == bcryptHash password

/-- The JWT payload signed by `UserService.generateToken` and decoded by
`jwt.verify` (interface JWTPayload in src/middleware/auth.ts). -/
structure TokenPayload where
  userId : Nat
  email : String
  role : UserRole
deriving DecidableEq

/-- Model of a signed JWT: the payload, the secret it was signed with
(standing in for the HMAC signature), and whether its 24h expiry has
passed at the moment it is verified. -/
structure Token where
  payload : TokenPayload
  signedWith : String
  expired : Bool
deriving DecidableEq

/-- Model of `jwt.verify(token, secret)`: yields the payload when the
signature matches the secret and the token is unexpired, and fails (the
library throws, caught by the callers) otherwise. -/
def jwtVerify (tok : Token) (secret : String) : Option TokenPayload :=
  if tok.signedWith == secret && !tok.expired then some tok.payload else none

/-- The `User` shape produced by `UserService.mapRowToUser`
(src/services/userService.ts); timestamps omitted. -/
structure User where
  id : Nat
  email : String
  firstName : String
  lastName : String
  phone : Option String
  role : UserRole
  isActive : Bool
deriving DecidableEq

/-- The `AuthUser` identity attached to requests (src/types/user.ts). -/
structure AuthUser where
  id : Nat
  email : String
  role : UserRole
deriving DecidableEq

/-- The request body of POST /api/auth/register (`RegisterRequest` in
src/types/user.ts). Absent optional JSON fields are `none`; the
required string fields model an absent value as `""` (both are falsy in
the controller's guards). -/
structure RegisterRequest where
  email : String
  password : String
  firstName : String
  lastName : String
  phone : Option String
  role : Option UserRole
deriving DecidableEq

/-- The request body of POST /api/auth/login (`LoginRequest`). -/
structure LoginRequest where
  email : String
  password : String
deriving DecidableEq

namespace UserService

/-- UserService.mapRowToUser (src/services/userService.ts). -/
def mapRowToUser (r : UserRow) : User :=
  { id := r.id, email := r.email, firstName := r.first_name, lastName := r.last_name,
    phone := r.phone, role := r.role, isActive := r.is_active }

/-- UserService.generateToken: signs {userId, email, role} with the
service's secret; `expired := false` records that a freshly issued token
is within its 24h validity. -/
def generateToken (secret : String) (user : User) : Token :=
  { payload := { userId := user.id, email := user.email, role := user.role },
    signedWith := secret, expired := false }

/-- UserService.register (src/services/userService.ts, lines 24-75).
The INSERT omits `is_active`, so the new row takes the schema default
TRUE. Role is 'admin' only when the request asks for 'admin' AND the
requesting user (if any) has role 'admin'. -/
def register (secret : String) (t : UsersTable) (userData : RegisterRequest)
    (requestingUser : Option AuthUser) : Except String (User × Token × UsersTable) :=
  if t.rows.any fun r => r.email == userData.email then
    Except.error "User already exists with this email"
  else
    let hashedPassword := bcryptHash userData.password
    let role : UserRole :=
      if userData.role == some UserRole.admin
          && requestingUser.map (fun ru => ru.role) == some UserRole.admin then
        UserRole.admin
      else
        UserRole.user
    let row : UserRow :=
      { id := t.nextId, email := userData.email, password := hashedPassword,
        first_name := userData.firstName, last_name := userData.lastName,
        phone := userData.phone, role := role, is_active := true }
    let user := mapRowToUser row
    Except.ok (user, generateToken secret user,
               { rows := t.rows ++ [row], nextId := t.nextId + 1 })

/-- UserService.login (src/services/userService.ts, lines 77-109):
`SELECT * FROM users WHERE email = $1 AND is_active = true`, then bcrypt
comparison against `rows[0]`. -/
def login (secret : String) (t : UsersTable) (credentials : LoginRequest) :
    Except String (User × Token) :=
  match t.rows.filter fun r => r.email == credentials.email && r.is_active with
  | [] => Except.error "User not exist"
  | row :: _ =>
      if bcryptCompare credentials.password row.password then
        Except.ok (mapRowToUser row, generateToken secret (mapRowToUser row))
      else
        Except.error "Password is invalid"

end UserService

/-- The Authorization header of a request, at the level the middleware
inspects it: absent, present but not of the `Bearer ` shape, or carrying
a bearer token. -/
inductive AuthHeader where
  | missing
  | malformed
  | bearer (tok : Token)

/-- What `AuthMiddleware.authenticate` did to the request: the HTTP
status it wrote (none when it passed the request on), the response
message, the identity it attached as `req.user`, and whether it called
`next()`. -/
structure AuthOutcome where
  status : Option Nat
  message : Option String
  reqUser : Option AuthUser
  nextCalled : Bool
deriving DecidableEq

/-- AuthMiddleware.authenticate (src/middleware/auth.ts, lines 23-85):
header check, `jwt.verify`, then the mandatory live re-fetch
`SELECT id, email, role, is_active FROM users WHERE id = $1`; a missing
row or `is_active = false` yields 401 with no identity attached and no
`next()` call. -/
def authenticate (secret : String) (t : UsersTable) (h : AuthHeader) : AuthOutcome :=
  match h with
  | AuthHeader.missing =>
      { status := some 401, message := some "Access token required", reqUser := none, nextCalled := false }
  | AuthHeader.malformed =>
      { status := some 401, message := some "Access token required", reqUser := none, nextCalled := false }
  | AuthHeader.bearer tok =>
      match jwtVerify tok secret with
      | none =>
          { status := some 401, message := some "Invalid token", reqUser := none, nextCalled := false }
      | some decoded =>
          match t.rows.find? fun r => r.id == decoded.userId with
          | none =>
              { status := some 401, message := some "Invalid or expired token", reqUser := none, nextCalled := false }
          | some row =>
              if !row.is_active then
                { status := some 401, message := some "Invalid or expired token", reqUser := none, nextCalled := false }
              else
                { status := none, message := none,
                  reqUser := some { id := row.id, email := row.email, role := row.role },
                  nextCalled := true }

/-- Model of the controller's email check against
/^[^\s@]+@[^\s@]+\.[^\s@]+$/ (src/controllers/authController.ts): with
backtracking the regex accepts exactly the strings with no whitespace,
exactly one '@' (the two-way split enforces that the parts are '@'-free)
with a nonempty part before it, and a '.' in the part after the '@' that
has at least one character on each side. -/
def emailRegexTest (s : String) : Bool :=
  let cs := s.data
  cs.all (fun ch => !ch.isWhitespace) &&
    match cs.splitOn '@' with
    | [localPart, domainPart] =>
        !localPart.isEmpty && ((domainPart.drop 1).dropLast.contains '.')
    | _ => false

/-- The response the auth controller writes: HTTP status, envelope
success flag and message, and the payload of a successful registration. -/
structure AuthHttpResponse where
  status : Nat
  success : Bool
  message : String
  user : Option User
  token : Option Token
deriving DecidableEq

/-- AuthController.register (src/controllers/authController.ts): the
three validation guards, then `userService.register(userData, req.user)`;
a service failure is written as 400 with the failure's message. -/
def authControllerRegister (secret : String) (t : UsersTable) (body : RegisterRequest)
    (reqUser : Option AuthUser) : AuthHttpResponse × UsersTable :=
  if body.email == "" || body.password == "" then
    ({ status := 400, success := false, message := "Email and password are required",
       user := none, token := none }, t)
  else if !emailRegexTest body.email then
    ({ status := 400, success := false, message := "Invalid email format",
       user := none, token := none }, t)
  else if body.password.length < 6 then
    ({ status := 400, success := false, message := "Password must be at least 6 characters long",
       user := none, token := none }, t)
  else
    match UserService.register secret t body reqUser with
    | Except.ok (user, token, t2) =>
        ({ status := 201, success := true, message := "User registered successfully",
           user := some user, token := some token }, t2)
    | Except.error msg =>
        ({ status := 400, success := false, message := msg, user := none, token := none }, t)

/-- POST /api/auth/register as wired in src/routes/auth.ts (line 72):
`router.post('/register', authController.register)` installs no
authentication middleware, and no other middleware in the chain sets
`req.user`, so the controller always runs with `req.user = undefined`. -/
def registerRoute (secret : String) (t : UsersTable) (body : RegisterRequest) :
    AuthHttpResponse × UsersTable :=
  authControllerRegister secret t body none

/-- The response the cart controller writes. -/
structure CartHttpResponse where
  status : Nat
  success : Bool
  message : String
deriving DecidableEq

/-- CartController.addToCart (src/controllers/cartController.ts, lines
12-65) behind the cart router's `authenticate` (`req.user` is the
identity it attached, `none` when authentication did not attach one).
The body's courseId is `none` when absent or not a number; the extra
`cid == 0` test mirrors `!courseId` being true for the number 0. On a
service failure the controller compares the message against
"Course not found" and "Course already in cart" and otherwise writes
500 with the message. -/
def cartAddEndpoint (t : CartTable) (reqUser : Option AuthUser) (courseId : Option Nat) :
    CartHttpResponse × CartTable :=
  match reqUser with
  | none => ({ status := 401, success := false, message := "User not authenticated" }, t)
  | some user =>
      match courseId with
      | none => ({ status := 400, success := false, message := "Valid course ID is required" }, t)
      | some cid =>
          if cid == 0 then
            ({ status := 400, success := false, message := "Valid course ID is required" }, t)
          else
            match CartService.addToCart t user.id cid with
            | Except.ok (_, t2) =>
                ({ status := 201, success := true, message := "Course added to cart successfully" }, t2)
            | Except.error msg =>
                if msg == "Course not found" then
                  ({ status := 404, success := false, message := msg }, t)
                else if msg == "Course already in cart" then
                  ({ status := 409, success := false, message := msg }, t)
                else
                  ({ status := 500, success := false, message := msg }, t)

/-- An empty `users` table. -/
def usersEmpty : UsersTable := { rows := [], nextId := 1 }

/-- Users table for the C1 witness: the single user with id 1 has been
deactivated. -/
def c1Row : UserRow :=
  { id := 1, email := "a@x.com", password := bcryptHash "secret1",
    first_name := "A", last_name := "B", phone := none,
    role := UserRole.user, is_active := false }

/-- Users table holding only the deactivated `c1Row`. -/
def c1Table : UsersTable := { rows := [c1Row], nextId := 2 }

/-- Token signed with the live secret for user 1, not yet expired. -/
def c1Token : Token :=
  { payload := { userId := 1, email := "a@x.com", role := UserRole.user },
    signedWith := "s", expired := false }

/-- Cart table for C2: the (user 1, course 1) row has bought = true. -/
def c2Table : CartTable :=
  { rows := [{ id := 1, user_id := 1, course_id := 1, bought := true }], nextId := 2 }

/-- Cart table for the C3 counterexample: user 1 has one bought row and no
unbought rows. -/
def c3Table : CartTable :=
  { rows := [{ id := 1, user_id := 1, course_id := 7, bought := true }], nextId := 2 }

/-- Cart table for the C6 witness: user 1 holds course 5 unbought. -/
def c6Table : CartTable :=
  { rows := [{ id := 1, user_id := 1, course_id := 5, bought := false }], nextId := 2 }

/-- The authenticated user for the C7 scenario. -/
def c7User : AuthUser := { id := 1, email := "u@x.com", role := UserRole.user }

/-- Cart table after the first add of the C8 witness scenario. -/
def c8TableA : CartTable :=
  { rows := [{ id := 1, user_id := 1, course_id := 5, bought := false }], nextId := 2 }

/-- Cart table after the second add of the C8 witness scenario. -/
def c8TableB : CartTable :=
  { rows := [{ id := 1, user_id := 1, course_id := 5, bought := false },
             { id := 2, user_id := 1, course_id := 6, bought := false }], nextId := 3 }

/-- The cart table after task B's addToCart(1, 5) completed. -/
def c10Table : CartTable :=
  { rows := [{ id := 1, user_id := 1, course_id := 5, bought := false }], nextId := 2 }

/-- The `users` row `UserService.register` inserts for request `d` made
by `ru` (the `row` local of register). -/
def UserService.newUserRow (t : UsersTable) (d : RegisterRequest) (ru : Option AuthUser) : UserRow :=
  { id := t.nextId, email := d.email, password := bcryptHash d.password,
    first_name := d.firstName, last_name := d.lastName, phone := d.phone,
    role := if d.role == some UserRole.admin
        && ru.map (fun x => x.role) == some UserRole.admin then UserRole.admin
      else UserRole.user,
    is_active := true }

/-- Requesting admin identity for the C4 witness. -/
def c4Admin : AuthUser := { id := 9, email := "root@x.com", role := UserRole.admin }

/-- Registration body of the C4 witness: it asks for role 'admin'. -/
def c4Body : RegisterRequest :=
  { email := "n@x.com", password := "secret1", firstName := "N", lastName := "U",
    phone := none, role := some UserRole.admin }

/-- Registration body for the C5 witness: it explicitly asks for role
'admin'. -/
def c5Body : RegisterRequest :=
  { email := "n@x.com", password := "secret1", firstName := "N", lastName := "U",
    phone := none, role := some UserRole.admin }

/-- The row the C9 witness registration inserts. -/
def c9Row : UserRow :=
  { id := 1, email := "a@x.com", password := bcryptHash "secret1", first_name := "A",
    last_name := "B", phone := none, role := UserRole.user, is_active := true }

/-- Users table after the C9 witness registration. -/
def c9Table : UsersTable := { rows := [c9Row], nextId := 2 }

/-- Registration body of the C9 witness. -/
def c9Body : RegisterRequest :=
  { email := "a@x.com", password := "secret1", firstName := "A", lastName := "B",
    phone := none, role := none }

/-- C1: when the bearer token verifies (valid signature, unexpired) but
every `users` row with the decoded userId — in particular the absent-row
case — has `is_active = false`, `authenticate` responds 401, attaches no
identity to the request, and does not call the next handler. A token for
a user deactivated after issuance is the instance where the row exists
with `is_active = false` while the token is unexpired. -/
theorem c1_authenticate_rejects_stale (secret : String) (t : UsersTable) (tok : Token)
    (payload : TokenPayload)
    (hver : jwtVerify tok secret = some payload)
    (hstale : ∀ r ∈ t.rows, r.id = payload.userId → r.is_active = false) :
    authenticate secret t (AuthHeader.bearer tok) =
      { status := some 401, message := some "Invalid or expired token",
        reqUser := none, nextCalled := false } := by
  cases hf : t.rows.find? fun r => r.id == payload.userId with
  | none => simp [authenticate, hver, hf]
  | some row =>
      have hmem : row ∈ t.rows := List.mem_of_find?_eq_some hf
      have hid := List.find?_some hf
      have hact : row.is_active = false := hstale row hmem (by simpa using hid)
      simp [authenticate, hver, hf, hact]

/-- C1 witness: a well-signed, unexpired token for the deactivated user 1
is rejected with 401, no identity, no next() call. -/
theorem c1_authenticate_rejects_stale_witness :
    authenticate "s" c1Table (AuthHeader.bearer c1Token) =
      { status := some 401, message := some "Invalid or expired token",
        reqUser := none, nextCalled := false } :=
  c1_authenticate_rejects_stale "s" c1Table c1Token
    { userId := 1, email := "a@x.com", role := UserRole.user } rfl (by decide)

/-- C2: on a row with bought = true the claim requires the
AlreadyPurchased failure "You already bought it", but the code raises the
AlreadyInCart failure "Course already in Cart": the pre-check SELECTs only
`id`, so reading `.bought` on the result row yields undefined (falsy) and
the AlreadyPurchased branch is dead. -/
theorem c2_addToCart_bought_row_misreported :
    CartService.addToCart c2Table 1 1 = Except.error "Course already in Cart" ∧
    "Course already in Cart" ≠ "You already bought it" :=
  ⟨rfl, by decide⟩

/-- C3 counterexample: user 1 has no unbought rows, yet
clearCart(1, true) returns true, because the UPDATE has no bought filter
and matches (and counts) the bought row; the claim requires false here. -/
theorem c3_clearCart_counterexample :
    (c3Table.rows.all fun r => !(r.user_id == 1 && r.bought == false)) = true ∧
    (CartService.clearCart c3Table 1 true).1 = true :=
  ⟨rfl, rfl⟩

/-- C3 (amended): clearCart(u, true) sets bought = true on all of u's
rows (so exactly the unbought ones change state) and leaves other users'
rows untouched, but its returned boolean is true iff u has at least one
cart row of either bought state — the UPDATE matches bought rows too;
clearCart(u, false) deletes exactly u's unbought rows and returns true
iff at least one row was deleted. -/
theorem c3_clearCart_characterized (t : CartTable) (u : Nat) :
    ((CartService.clearCart t u true).1 = true ↔ ∃ r ∈ t.rows, r.user_id = u) ∧
    (∀ r ∈ (CartService.clearCart t u true).2.rows, r.user_id = u → r.bought = true) ∧
    (∀ r ∈ t.rows, r.user_id ≠ u → r ∈ (CartService.clearCart t u true).2.rows) ∧
    ((CartService.clearCart t u false).1 = true ↔
        ∃ r ∈ t.rows, r.user_id = u ∧ r.bought = false) ∧
    (∀ r, r ∈ (CartService.clearCart t u false).2.rows ↔
        r ∈ t.rows ∧ ¬(r.user_id = u ∧ r.bought = false)) := by
  refine ⟨?_, ?_, ?_, ?_, ?_⟩
  · simp [CartService.clearCart, List.countP_pos_iff]
  · intro r hr hu
    simp only [CartService.clearCart, if_true, List.mem_map] at hr
    obtain ⟨a, _, hfa⟩ := hr
    by_cases ha : (a.user_id == u) = true
    · rw [ha] at hfa
      simp at hfa
      rw [← hfa]
    · rw [Bool.not_eq_true] at ha
      rw [ha] at hfa
      simp at hfa
      rw [← hfa] at hu
      exact absurd hu (by simpa using ha)
  · intro r hr hu
    simp only [CartService.clearCart, if_true, List.mem_map]
    refine ⟨r, hr, ?_⟩
    have : (r.user_id == u) = false := by simpa using hu
    rw [this]
    simp
  · simp [CartService.clearCart, List.countP_pos_iff]
  · intro r
    simp [CartService.clearCart, List.mem_filter]
    tauto

/-- C3 witness: on the concrete table where user 1 has one bought row,
the amended characterization yields that clearCart(1, true) reports
true. -/
theorem c3_clearCart_characterized_witness :
    (CartService.clearCart c3Table 1 true).1 = true :=
  (c3_clearCart_characterized c3Table 1).1.mpr
    ⟨{ id := 1, user_id := 1, course_id := 7, bought := true }, by decide, rfl⟩

/-- C6: removeFromCart(u, c) returns true exactly when an unbought (u, c)
row exists; when no unbought (u, c) row exists (in particular when the
row is bought) the table is left unchanged; and after the call
isInCart(u, c) is false. -/
theorem c6_removeFromCart_spec (t : CartTable) (u c : Nat) :
    ((CartService.removeFromCart t u c).1 = true ↔
        ∃ r ∈ t.rows, r.user_id = u ∧ r.course_id = c ∧ r.bought = false) ∧
    ((¬∃ r ∈ t.rows, r.user_id = u ∧ r.course_id = c ∧ r.bought = false) →
        (CartService.removeFromCart t u c).2 = t) ∧
    CartService.isInCart (CartService.removeFromCart t u c).2 u c = false := by
  refine ⟨?_, ?_, ?_⟩
  · simp [CartService.removeFromCart, List.countP_pos_iff, and_assoc]
  · intro hno
    have hall : ∀ r ∈ t.rows,
        (!(r.user_id == u && r.course_id == c && r.bought == false)) = true := by
      intro r hr
      by_contra hcontra
      apply hno
      refine ⟨r, hr, ?_⟩
      simp at hcontra
      simpa [and_assoc] using hcontra
    simp only [CartService.removeFromCart]
    have : t.rows.filter
        (fun r => !(r.user_id == u && r.course_id == c && r.bought == false)) = t.rows :=
      List.filter_eq_self.mpr hall
    cases t
    simp_all
  · simp only [CartService.removeFromCart, CartService.isInCart, List.filter_filter]
    have : ∀ r : CartRow,
        ((r.user_id == u && r.course_id == c && r.bought == false) &&
          !(r.user_id == u && r.course_id == c && r.bought == false)) = false := by
      intro r
      exact Bool.and_not_self _
    simp [this]

/-- C6 witness: removing the unbought (1, 5) row reports true. -/
theorem c6_removeFromCart_spec_witness :
    (CartService.removeFromCart c6Table 1 5).1 = true :=
  (c6_removeFromCart_spec c6Table 1 5).1.mpr
    ⟨{ id := 1, user_id := 1, course_id := 5, bought := false }, by decide, rfl, rfl, rfl⟩

/-- C7: POST /api/cart {courseId: 5} twice for the same authenticated
user: the first request returns 201, but the second returns 500, not the
400/409 the claim requires — the service's message "Course already in
Cart" does not match the controller's comparison string
"Course already in cart" (lowercase), so the 409 branch is dead and the
generic 500 branch fires. -/
theorem c7_duplicate_add_returns_500 :
    (cartAddEndpoint cartEmpty (some c7User) (some 5)).1.status = 201 ∧
    (cartAddEndpoint (cartAddEndpoint cartEmpty (some c7User) (some 5)).2
        (some c7User) (some 5)).1.status = 500 ∧
    (cartAddEndpoint (cartAddEndpoint cartEmpty (some c7User) (some 5)).2
        (some c7User) (some 5)).1.message = "Course already in Cart" :=
  ⟨rfl, rfl, rfl⟩

/-- After a checkout commit (clearCart with bought = true) a user has no
unbought rows, so the unbought count is zero. -/
theorem count_zero_after_commit (t : CartTable) (u : Nat) :
    CartService.getCartItemCount (CartService.clearCart t u true).2 u = 0 := by
  simp only [CartService.getCartItemCount, CartService.clearCart, if_true]
  rw [List.countP_eq_zero]
  intro r hr
  simp only [List.mem_map] at hr
  obtain ⟨a, _, hfa⟩ := hr
  by_cases ha : (a.user_id == u) = true
  · rw [ha] at hfa
    simp only [if_true] at hfa
    rw [← hfa]
    simp
  · rw [Bool.not_eq_true] at ha
    rw [ha] at hfa
    simp only [Bool.false_eq_true, if_false] at hfa
    rw [← hfa]
    simp [ha]

/-- C8: getCartItemCount counts exactly the user's unbought rows (bought
rows never count), and in particular after adding two items and
committing the cart with clearCart(u, true) the count is 0. -/
theorem c8_count_unbought_only (t : CartTable) (u c1 c2 : Nat) :
    CartService.getCartItemCount t u =
        (t.rows.filter fun r => r.user_id == u && r.bought == false).length ∧
    (∀ r1 t1 r2 t2, CartService.addToCart t u c1 = Except.ok (r1, t1) →
        CartService.addToCart t1 u c2 = Except.ok (r2, t2) →
        CartService.getCartItemCount (CartService.clearCart t2 u true).2 u = 0) := by
  constructor
  · simp [CartService.getCartItemCount, List.countP_eq_length_filter]
  · intro r1 t1 r2 t2 h1 h2
    exact count_zero_after_commit t2 u

/-- C8 witness: user 1 adds courses 5 and 6, then commits the cart; the
unbought count is 0. -/
theorem c8_count_unbought_only_witness :
    CartService.getCartItemCount (CartService.clearCart c8TableB 1 true).2 1 = 0 :=
  (c8_count_unbought_only cartEmpty 1 5 6).2
    { id := 1, userId := 1, courseId := 5 } c8TableA
    { id := 2, userId := 1, courseId := 6 } c8TableB rfl rfl

/-- C10 (amended): when a concurrent addToCart for the same (u, c) races
past the existence pre-check and the store then rejects its INSERT via
the UNIQUE(user_id, course_id) constraint, the service propagates the
store's duplicate-key error unchanged — it does not translate it into
the AlreadyInCart failure "Course already in Cart" (the controller
surfaces it as a generic 500). -/
theorem c10_race_error_not_translated (t : CartTable) (u c : Nat)
    (hdup : (t.rows.any fun r => r.user_id == u && r.course_id == c) = true) :
    CartService.addToCartInsertPhase t u c = Except.error CartService.uniqueViolationMsg ∧
    CartService.uniqueViolationMsg ≠ "Course already in Cart" := by
  constructor
  · simp [CartService.addToCartInsertPhase, CartService.insertCartItem, hdup]
  · decide

/-- C10 counterexample: two addToCart(1, 5) calls race on the empty
table. Task A's pre-check passes (the row is not there yet), task B's
complete call succeeds and inserts the row, and when task A resumes its
INSERT the store rejects it; the error task A's service call surfaces is
the raw duplicate-key message, not the AlreadyInCart failure the claim
asserts. -/
theorem c10_race_counterexample :
    CartService.addToCartPrecheck cartEmpty 1 5 = Except.ok () ∧
    CartService.addToCart cartEmpty 1 5 =
        Except.ok ({ id := 1, userId := 1, courseId := 5 }, c10Table) ∧
    CartService.addToCartInsertPhase c10Table 1 5 =
        Except.error CartService.uniqueViolationMsg ∧
    CartService.uniqueViolationMsg ≠ "Course already in Cart" :=
  ⟨rfl, rfl, rfl, by decide⟩

/-- C10 witness: the amended theorem applied to the post-race table. -/
theorem c10_race_error_not_translated_witness :
    CartService.addToCartInsertPhase c10Table 1 5 =
        Except.error CartService.uniqueViolationMsg ∧
    CartService.uniqueViolationMsg ≠ "Course already in Cart" :=
  c10_race_error_not_translated c10Table 1 5 rfl

/-- Register, when the email is free, succeeds and appends exactly
`newUserRow`. -/
theorem UserService.register_eq_of_email_free (secret : String) (t : UsersTable)
    (d : RegisterRequest) (ru : Option AuthUser)
    (h : (t.rows.any fun r => r.email == d.email) = false) :
    UserService.register secret t d ru =
      Except.ok (UserService.mapRowToUser (UserService.newUserRow t d ru),
        UserService.generateToken secret (UserService.mapRowToUser (UserService.newUserRow t d ru)),
        { rows := t.rows ++ [UserService.newUserRow t d ru], nextId := t.nextId + 1 }) := by
  simp [UserService.register, UserService.newUserRow, h]

/-- The inserted row's role is 'admin' exactly when the request asked for
'admin' and the requesting identity is an admin. -/
theorem UserService.newUserRow_role_iff (t : UsersTable) (d : RegisterRequest)
    (ru : Option AuthUser) :
    (UserService.newUserRow t d ru).role = UserRole.admin ↔
      d.role = some UserRole.admin ∧ ∃ a, ru = some a ∧ a.role = UserRole.admin := by
  by_cases hc : (d.role == some UserRole.admin
      && ru.map (fun x => x.role) == some UserRole.admin) = true
  · simp only [UserService.newUserRow, hc, if_true]
    simp only [Bool.and_eq_true, beq_iff_eq] at hc
    obtain ⟨h1, h2⟩ := hc
    constructor
    · intro _
      refine ⟨h1, ?_⟩
      rcases ru with _ | a
      · simp at h2
      · exact ⟨a, rfl, by simpa using h2⟩
    · intro _
      trivial
  · simp only [UserService.newUserRow]
    rw [if_neg hc]
    constructor
    · intro habs
      exact UserRole.noConfusion habs
    · rintro ⟨h1, a, rfl, h2⟩
      exact absurd (by simp [h1, h2]) hc

/-- C4: when the email is free, registration always succeeds, the new
row's stored role is 'admin' exactly when the request asks for 'admin'
and the requesting identity is an admin, and in every other case it is
'user'. -/
theorem c4_register_admin_gate (secret : String) (t : UsersTable) (d : RegisterRequest)
    (ru : Option AuthUser)
    (h : (t.rows.any fun r => r.email == d.email) = false) :
    ∃ row t2 tok,
      UserService.register secret t d ru = Except.ok (UserService.mapRowToUser row, tok, t2) ∧
      t2.rows = t.rows ++ [row] ∧
      (row.role = UserRole.admin ↔
        d.role = some UserRole.admin ∧ ∃ a, ru = some a ∧ a.role = UserRole.admin) ∧
      (¬(d.role = some UserRole.admin ∧ ∃ a, ru = some a ∧ a.role = UserRole.admin) →
        row.role = UserRole.user) := by
  refine ⟨UserService.newUserRow t d ru, _, _,
    UserService.register_eq_of_email_free secret t d ru h, rfl,
    UserService.newUserRow_role_iff t d ru, ?_⟩
  intro hno
  cases hrole : (UserService.newUserRow t d ru).role with
  | user => rfl
  | admin => exact absurd ((UserService.newUserRow_role_iff t d ru).mp hrole) hno

/-- C4 witness: an admin-requested registration performed by an admin on
the empty store succeeds, and the stored role satisfies the gate. -/
theorem c4_register_admin_gate_witness :
    ∃ row t2 tok,
      UserService.register "s" usersEmpty c4Body (some c4Admin) =
        Except.ok (UserService.mapRowToUser row, tok, t2) ∧
      t2.rows = usersEmpty.rows ++ [row] ∧
      (row.role = UserRole.admin ↔
        c4Body.role = some UserRole.admin ∧
          ∃ a, (some c4Admin : Option AuthUser) = some a ∧ a.role = UserRole.admin) ∧
      (¬(c4Body.role = some UserRole.admin ∧
          ∃ a, (some c4Admin : Option AuthUser) = some a ∧ a.role = UserRole.admin) →
        row.role = UserRole.user) :=
  c4_register_admin_gate "s" usersEmpty c4Body (some c4Admin) rfl

/-- C5: every user created through POST /api/auth/register has role
'user', never 'admin': the route installs no authentication middleware,
so the controller always passes `req.user = undefined` to the service,
and the admin branch of the role gate cannot be taken. -/
theorem c5_register_route_creates_only_users (secret : String) (t : UsersTable)
    (body : RegisterRequest) :
    ∀ r ∈ (registerRoute secret t body).2.rows, r ∉ t.rows → r.role = UserRole.user := by
  intro r hr hnot
  by_cases h1 : (body.email == "" || body.password == "") = true
  · simp only [registerRoute, authControllerRegister, h1, if_true] at hr
    exact absurd hr hnot
  · rw [Bool.not_eq_true] at h1
    by_cases h2 : emailRegexTest body.email = true
    · by_cases h3 : body.password.length < 6
      · simp only [registerRoute, authControllerRegister, h1, h2, h3] at hr
        simp at hr
        exact absurd hr hnot
      · by_cases hany : (t.rows.any fun r0 => r0.email == body.email) = true
        · simp only [registerRoute, authControllerRegister, h1, h2, h3,
            UserService.register, hany] at hr
          simp at hr
          exact absurd hr hnot
        · rw [Bool.not_eq_true] at hany
          have heq := UserService.register_eq_of_email_free secret t body none hany
          simp only [registerRoute, authControllerRegister, h1, h2, h3, heq] at hr
          simp only [Bool.false_eq_true, if_false, Bool.not_true, List.mem_append,
            List.mem_singleton] at hr
          rcases hr with hin | hnew
          · exact absurd hin hnot
          · rw [hnew]
            simp [UserService.newUserRow]
    · rw [Bool.not_eq_true] at h2
      simp only [registerRoute, authControllerRegister, h1, h2] at hr
      simp at hr
      exact absurd hr hnot

/-- C5 witness: registering through the public route with a body asking
for 'admin' stores the new row with role 'user'. -/
theorem c5_register_route_creates_only_users_witness :
    ({ id := 1, email := "n@x.com", password := bcryptHash "secret1", first_name := "N",
       last_name := "U", phone := none, role := UserRole.user, is_active := true } :
      UserRow).role = UserRole.user :=
  c5_register_route_creates_only_users "s" usersEmpty c5Body
    { id := 1, email := "n@x.com", password := bcryptHash "secret1", first_name := "N",
      last_name := "U", phone := none, role := UserRole.user, is_active := true }
    (by decide) (by decide)

/-- C9: whenever registration succeeds and returns a user, an immediate
login with the same email and password succeeds and returns a user with
the same id. -/
theorem c9_register_login_roundtrip (secret : String) (t : UsersTable) (d : RegisterRequest)
    (ru : Option AuthUser) (u : User) (tok : Token) (t2 : UsersTable)
    (hreg : UserService.register secret t d ru = Except.ok (u, tok, t2)) :
    ∃ u2 tok2,
      UserService.login secret t2 { email := d.email, password := d.password } =
        Except.ok (u2, tok2) ∧ u2.id = u.id := by
  by_cases hany : (t.rows.any fun r => r.email == d.email) = true
  · exfalso
    simp [UserService.register, hany] at hreg
  · rw [Bool.not_eq_true] at hany
    rw [UserService.register_eq_of_email_free secret t d ru hany] at hreg
    simp only [Except.ok.injEq, Prod.mk.injEq] at hreg
    obtain ⟨hu, -, ht2⟩ := hreg
    refine ⟨UserService.mapRowToUser (UserService.newUserRow t d ru),
      UserService.generateToken secret (UserService.mapRowToUser (UserService.newUserRow t d ru)),
      ?_, by rw [← hu]⟩
    rw [← ht2]
    have hnil : t.rows.filter (fun r => r.email == d.email && r.is_active) = [] := by
      rw [List.filter_eq_nil_iff]
      intro r hrmem
      have hp := (List.any_eq_false.mp hany) r hrmem
      simp only [Bool.and_eq_true, not_and]
      intro hmail
      exact absurd hmail hp
    simp [UserService.login, List.filter_append, hnil, UserService.newUserRow, bcryptCompare]

/-- C9 witness: after registering a@x.com on the empty store, logging in
with the same credentials succeeds and returns the same user id. -/
theorem c9_register_login_roundtrip_witness :
    ∃ u2 tok2,
      UserService.login "s" c9Table { email := c9Body.email, password := c9Body.password } =
        Except.ok (u2, tok2) ∧ u2.id = (UserService.mapRowToUser c9Row).id :=
  c9_register_login_roundtrip "s" usersEmpty c9Body none (UserService.mapRowToUser c9Row)
    (UserService.generateToken "s" (UserService.mapRowToUser c9Row)) c9Table rfl
